import Mathlib

/-
  Verification development for the Lognalizer repository.

  Shallow embedding of the ingestion-and-classification pipeline and the
  query engine:
    - src/parser_linux.py          (syslog parser)
    - src/parser_zabbix_server.py  (zabbix server parser)
    - src/parser_zabbix_proxy.py   (zabbix proxy parser)
    - src/models.py                (PHP parser, plaintext ingestion, sniffer)
    - src/ingest.py                (per-source ingestion steps)
    - src/analyzer.py              (filter construction / SQL LIKE)
    - src/cli.py                   (filter presets)

  Python strings are modelled as Lean String (lists of characters); the
  regular expressions of the source are transcribed as explicit matching
  functions over List Char, following the backtracking semantics of the
  original patterns (noted at each definition).  datetime values are
  modelled by an explicit DateTime structure; "the current instant"
  (datetime.now / datetime.utcnow) is passed in as a parameter.
-/

namespace Lognalizer

/-! ## Character classes (ASCII, mirroring the regex classes used by the code) -/

/-- Regex class d (ASCII digits; the inputs handled here are ASCII). -/
def isDigitCh (c : Char) : Bool := '0' ≤ c && c ≤ '9'

def isUpperCh (c : Char) : Bool := 'A' ≤ c && c ≤ 'Z'

def isLowerCh (c : Char) : Bool := 'a' ≤ c && c ≤ 'z'

def isAlphaCh (c : Char) : Bool := isUpperCh c || isLowerCh c

/-- Regex class w (word characters): letters, digits, underscore. -/
def isWordCh (c : Char) : Bool := isAlphaCh c || isDigitCh c || c == '_'

/-- Python/regex whitespace class s (ASCII part). -/
def isSpaceCh (c : Char) : Bool :=
  c == ' ' || c == '\t' || c == '\n' || c == '\x0d' || c == '\x0b' || c == '\x0c'

/-- ASCII-lowering of one character (Python str.lower on ASCII input). -/
def lowerCh (c : Char) : Char :=
  if isUpperCh c then Char.ofNat (c.toNat + 32) else c

/-- ASCII-uppering of one character (Python str.upper on ASCII input). -/
def upperCh (c : Char) : Char :=
  if isLowerCh c then Char.ofNat (c.toNat - 32) else c

def lowerStr (s : String) : String := String.mk (s.data.map lowerCh)

def upperStr (s : String) : String := String.mk (s.data.map upperCh)

/-! ## Python string helpers -/

/-- Python str.strip with no argument: drop leading and trailing whitespace. -/
def pyStrip (s : String) : String :=
  String.mk (((s.data.dropWhile isSpaceCh).reverse.dropWhile isSpaceCh).reverse)

/-- Python line.rstrip with a newline argument: drop all trailing newline
characters, as done by the per-line loops of ingest.py and the parsers. -/
def pyRstripNl (s : String) : String :=
  String.mk ((s.data.reverse.dropWhile (· == '\n')).reverse)

/-- Python str.find for a needle over the character list, returning the
first index at which the needle occurs, or none. -/
def findSub (hay needle : List Char) : Option Nat :=
  match hay with
  | [] => if needle.isEmpty then some 0 else none
  | _ :: t =>
    if needle.isPrefixOf hay then some 0
    else (findSub t needle).map (· + 1)

/-- Substring test: Python `needle in hay`. -/
def pyContains (hay needle : String) : Bool :=
  (findSub hay.data needle.data).isSome

/-- Digits to a natural number (int(...) on a digit string). -/
def digitsToNat (ds : List Char) : Nat :=
  ds.foldl (fun a c => a * 10 + (c.toNat - '0'.toNat)) 0

/-- Python str.endswith. -/
def pyEndsWith (s suffix : String) : Bool :=
  suffix.data.reverse.isPrefixOf s.data.reverse

/-! ## DateTime model

Python datetime objects are modelled explicitly.  The datetime constructor
of the standard library validates its arguments and raises ValueError on
out-of-range fields, which the code under verification does not catch; the
validating construction is `mkDatetime` below. -/

structure DateTime where
  year : Nat
  month : Nat
  day : Nat
  hour : Nat
  minute : Nat
  second : Nat
  micro : Nat
deriving DecidableEq, Repr

def isLeapYear (y : Nat) : Bool :=
  (y % 4 == 0 && y % 100 != 0) || y % 400 == 0

def daysInMonth (y m : Nat) : Nat :=
  if m == 2 then (if isLeapYear y then 29 else 28)
  else if m == 4 || m == 6 || m == 9 || m == 11 then 30
  else 31

/-- Validity check performed by datetime(...) / datetime.strptime:
MINYEAR 1 to MAXYEAR 9999, month 1..12, day in range for the month,
hour 0..23, minute 0..59, second 0..59. -/
def validDT (y mo d h mi s : Nat) : Bool :=
  1 ≤ y && y ≤ 9999 && 1 ≤ mo && mo ≤ 12 && 1 ≤ d && d ≤ daysInMonth y mo
    && h ≤ 23 && mi ≤ 59 && s ≤ 59

/-- datetime(y, mo, d, h, mi, s): validating constructor; error = ValueError. -/
def mkDatetime (y mo d h mi s : Nat) : Except Unit DateTime :=
  if validDT y mo d h mi s then
    .ok ⟨y, mo, d, h, mi, s, 0⟩
  else .error ()

/-- Zero-pad a natural number to a width (Python {:02d} and friends;
Python zero-padding never truncates). -/
def pad (w n : Nat) : String :=
  let s := toString n
  String.mk (List.replicate (w - s.length) '0') ++ s

/-- strftime "%Y-%m-%d %H:%M:%S" (datetime_utc_now and the PHP parser):
microseconds are never printed. -/
def strftimeYmdHMS (d : DateTime) : String :=
  pad 4 d.year ++ "-" ++ pad 2 d.month ++ "-" ++ pad 2 d.day ++ " "
    ++ pad 2 d.hour ++ ":" ++ pad 2 d.minute ++ ":" ++ pad 2 d.second

/-- dt.isoformat(sep=" "): like strftime above, except a nonzero
microsecond field is appended as ".NNNNNN". -/
def isoformatSp (d : DateTime) : String :=
  strftimeYmdHMS d ++ (if d.micro == 0 then "" else "." ++ pad 6 d.micro)

/-! ## The persisted record (models.py table `logs`, insert_log columns) -/

structure LogRecord where
  timestamp : String
  source : String
  level : String
  host : String
  message : String
  cause_group : Option String := none
  cause_reason : Option String := none
  cause_action : Option String := none
deriving DecidableEq, Repr

/-! ## Small fixed-shape matchers shared by the transcribed regexes -/

/-- Match `HH:MM:SS` shaped text (regex d{2}:d{2}:d{2}), returning the
matched characters and the remainder. -/
def timeMatch (cs : List Char) : Option (List Char × List Char) :=
  match cs with
  | h1 :: h2 :: ':' :: m1 :: m2 :: ':' :: s1 :: s2 :: rest =>
    if [h1, h2, m1, m2, s1, s2].all isDigitCh then
      some ([h1, h2, ':', m1, m2, ':', s1, s2], rest)
    else none
  | _ => none

/-! ## parser_zabbix_server.py / parser_zabbix_proxy.py

Both files compile the identical pattern
  `^\s*(?P<pid>\d+):(?P<date>\d{8}):(?P<time>\d{6})(?:\.\d+)?:\s*(?P<msg>.*)$`
(ZBX_SERVER_REGEX / ZBX_PROXY_REGEX).  Every quantifier here is greedy over
a character class that is disjoint from the literal that follows it, so the
match is computed without search: the pid digits are followed by a colon
(not a digit), the optional fractional digits by a colon, and the trailing
whitespace of `\s*` by the (unconstrained) message.  A line read from a
text file contains no inner newline, so `.*$` takes the whole remainder. -/

def zbxDaemonMatch (cs : List Char) :
    Option (List Char × List Char × List Char × List Char) :=
  let r0 := cs.dropWhile isSpaceCh
  let pid := r0.takeWhile isDigitCh
  if pid.isEmpty then none else
  match r0.drop pid.length with
  | ':' :: r2 =>
    let date := r2.take 8
    if date.length == 8 && date.all isDigitCh then
      match r2.drop 8 with
      | ':' :: r4 =>
        let time := r4.take 6
        if time.length == 6 && time.all isDigitCh then
          match r4.drop 6 with
          | '.' :: r6 =>
            let frac := r6.takeWhile isDigitCh
            if frac.isEmpty then none
            else
              match r6.drop frac.length with
              | ':' :: r7 => some (pid, date, time, r7.dropWhile isSpaceCh)
              | _ => none
          | ':' :: r7 => some (pid, date, time, r7.dropWhile isSpaceCh)
          | _ => none
        else none
      | _ => none
    else none
  | _ => none

namespace parser_zabbix_server

/-- guess_level of parser_zabbix_server.py (parser_zabbix_proxy.py contains
a textually identical copy; see parser_zabbix_proxy.guess_level). -/
def guess_level (msg : String) : String :=
  let up := upperStr msg
  if pyContains up "FATAL" || pyContains up "CRITICAL" then "CRITICAL"
  else if pyContains up "ERROR" || pyContains up "FAILED" || pyContains up "UNABLE" then "ERROR"
  else if pyContains up "WARN" || pyContains up "WARNING" then "WARN"
  else if pyContains up "DEBUG" then "DEBUG"
  else "INFO"

/-- parse_zabbix_server_line.  The function always produces a record; in
the structurally matched branch the datetime constructor can raise
ValueError on an out-of-range date, modelled by the error case. -/
def parse_zabbix_server_line (line : String) (host : String := "zabbix-server")
    (now : DateTime := ⟨2025, 1, 1, 0, 0, 0, 0⟩) : Except Unit LogRecord :=
  let line := pyRstripNl line
  match zbxDaemonMatch line.data with
  | some (_pid, date, time, msgRaw) =>
    let msg := pyStrip (String.mk msgRaw)
    let year := digitsToNat (date.take 4)
    let month := digitsToNat ((date.drop 4).take 2)
    let day := digitsToNat ((date.drop 6).take 2)
    let hour := digitsToNat (time.take 2)
    let minute := digitsToNat ((time.drop 2).take 2)
    let second := digitsToNat ((time.drop 4).take 2)
    match mkDatetime year month day hour minute second with
    | .ok dt =>
      .ok { timestamp := isoformatSp dt, source := "zabbix_server",
            level := guess_level msg, host := host, message := msg }
    | .error e => .error e
  | none =>
    let msg := pyStrip line
    .ok { timestamp := isoformatSp now, source := "zabbix_server_raw",
          level := guess_level msg, host := host, message := msg }

end parser_zabbix_server

namespace parser_zabbix_proxy

/-- guess_level of parser_zabbix_proxy.py (same text as the server one). -/
def guess_level (msg : String) : String :=
  let up := upperStr msg
  if pyContains up "FATAL" || pyContains up "CRITICAL" then "CRITICAL"
  else if pyContains up "ERROR" || pyContains up "FAILED" || pyContains up "UNABLE" then "ERROR"
  else if pyContains up "WARN" || pyContains up "WARNING" then "WARN"
  else if pyContains up "DEBUG" then "DEBUG"
  else "INFO"

/-- parse_zabbix_proxy_line (same structure as the server variant, with
proxy source tags and a different default host alias). -/
def parse_zabbix_proxy_line (line : String) (host : String := "zabbix-proxy")
    (now : DateTime := ⟨2025, 1, 1, 0, 0, 0, 0⟩) : Except Unit LogRecord :=
  let line := pyRstripNl line
  match zbxDaemonMatch line.data with
  | some (_pid, date, time, msgRaw) =>
    let msg := pyStrip (String.mk msgRaw)
    let year := digitsToNat (date.take 4)
    let month := digitsToNat ((date.drop 4).take 2)
    let day := digitsToNat ((date.drop 6).take 2)
    let hour := digitsToNat (time.take 2)
    let minute := digitsToNat ((time.drop 2).take 2)
    let second := digitsToNat ((time.drop 4).take 2)
    match mkDatetime year month day hour minute second with
    | .ok dt =>
      .ok { timestamp := isoformatSp dt, source := "zabbix_proxy",
            level := guess_level msg, host := host, message := msg }
    | .error e => .error e
  | none =>
    let msg := pyStrip line
    .ok { timestamp := isoformatSp now, source := "zabbix_proxy_raw",
          level := guess_level msg, host := host, message := msg }

end parser_zabbix_proxy

/-! ## parser_linux.py -/

namespace parser_linux

/-- Characters of the host group class `[\w\.\-]`. -/
def isHostCh (c : Char) : Bool := isWordCh c || c == '.' || c == '-'

/-- Match of SYSLOG_REGEX
  `^(?P<month>\w{3})\s+(?P<day>\d{1,2})\s+(?P<time>\d{2}:\d{2}:\d{2})\s+(?P<host>[\w\.\-]+)\s+(?P<rest>.*)$`,
returning the groups (month, day, time, host, rest).  Again every greedy
run is followed by a literal or class disjoint from it, so matching is
search-free; a day group of three or more digits can never match because
`\d{1,2}` leaves a digit in front of the mandatory whitespace. -/
def syslogMatch (cs : List Char) :
    Option (List Char × List Char × List Char × List Char × List Char) :=
  let mon := cs.take 3
  if mon.length == 3 && mon.all isWordCh then
    let r0 := cs.drop 3
    let sp1 := r0.takeWhile isSpaceCh
    if sp1.isEmpty then none else
    let r1 := r0.drop sp1.length
    let day := r1.takeWhile isDigitCh
    if day.length == 0 || 2 < day.length then none else
    let r2 := r1.drop day.length
    let sp2 := r2.takeWhile isSpaceCh
    if sp2.isEmpty then none else
    match timeMatch (r2.drop sp2.length) with
    | none => none
    | some (time, r4) =>
      let sp3 := r4.takeWhile isSpaceCh
      if sp3.isEmpty then none else
      let r5 := r4.drop sp3.length
      let host := r5.takeWhile isHostCh
      if host.isEmpty then none else
      let r6 := r5.drop host.length
      let sp4 := r6.takeWhile isSpaceCh
      if sp4.isEmpty then none else
      some (mon, day, time, host, r6.drop sp4.length)
  else none

/-- The fixed 12-entry month table MONTHS of parser_linux.py. -/
def MONTHS : List (String × Nat) :=
  [("Jan", 1), ("Feb", 2), ("Mar", 3), ("Apr", 4),
   ("May", 5), ("Jun", 6), ("Jul", 7), ("Aug", 8),
   ("Sep", 9), ("Oct", 10), ("Nov", 11), ("Dec", 12)]

/-- guess_level of parser_linux.py (substring rules; note that FAILED is
not among them, unlike the zabbix parsers). -/
def guess_level (msg : String) : String :=
  let up := upperStr msg
  if pyContains up "CRIT" || pyContains up "FATAL" then "CRITICAL"
  else if pyContains up "ERROR" || pyContains up " ERR " then "ERROR"
  else if pyContains up "WARN" then "WARN"
  else "INFO"

/-- parse_syslog_line.  `ok none` models the declined line (return None);
the error case models the uncaught ValueError that datetime.strptime
raises on an out-of-range synthesized date such as day 99.  Python
evaluates `year or now.year`, under which an explicit year 0 is falsy and
is replaced by the current year. -/
def parse_syslog_line (line : String) (year? : Option Nat := none)
    (now : DateTime := ⟨2025, 1, 1, 0, 0, 0, 0⟩) : Except Unit (Option LogRecord) :=
  match syslogMatch line.data with
  | none => .ok none
  | some (mon, dayDs, time, hostCs, restCs) =>
    let year := match year? with
      | some y => if y != 0 then y else now.year
      | none => now.year
    let month := (MONTHS.lookup (String.mk mon)).getD now.month
    let day := digitsToNat dayDs
    let host := String.mk hostCs
    let rest := pyStrip (String.mk restCs)
    let hour := digitsToNat (time.take 2)
    let minute := digitsToNat ((time.drop 3).take 2)
    let second := digitsToNat ((time.drop 6).take 2)
    match mkDatetime year month day hour minute second with
    | .ok dt =>
      .ok (some { timestamp := isoformatSp dt, source := "syslog",
                  level := guess_level rest, host := host, message := rest })
    | .error e => .error e

end parser_linux

/-! ## Case-insensitive and word-boundary matching helpers

The regexes of models.py are compiled with re.IGNORECASE; inputs handled
by the claims are ASCII, and the case folding here is the ASCII one. -/

/-- Case-insensitive literal prefix match, returning the remainder. -/
def ciPrefix : List Char → List Char → Option (List Char)
  | [], cs => some cs
  | _ :: _, [] => none
  | p :: ps, c :: cs => if lowerCh p == lowerCh c then ciPrefix ps cs else none

/-- True when the position in front of this remainder is a word boundary,
i.e. the next character (if any) is not a word character. -/
def nonWordStart (cs : List Char) : Bool :=
  match cs with
  | [] => true
  | c :: _ => !(isWordCh c)

/-- One token of a pattern of the shape `\bTOK\b` (case-insensitive)
anchored at the current position; prevIsWord says whether the previous
character was a word character.  Valid for tokens that start and end in
word characters, which all severity tokens do. -/
def wordTokenAt (tok : List Char) (prevIsWord : Bool) (cs : List Char) : Bool :=
  if prevIsWord then false
  else
    match ciPrefix tok cs with
    | some r => nonWordStart r
    | none => false

def wordSearchAux (tok : List Char) (prevIsWord : Bool) (cs : List Char) : Bool :=
  wordTokenAt tok prevIsWord cs ||
    (match cs with
     | [] => false
     | c :: t => wordSearchAux tok (isWordCh c) t)

/-- re.search of `\bTOK\b` with re.IGNORECASE. -/
def wordSearchCI (tok : String) (s : String) : Bool :=
  wordSearchAux tok.data false s.data

/-- The token of `\bWARN(ING)?\b`: the optional group is tried greedily,
falling back to the bare WARN when the boundary after WARNING fails. -/
def warnTokenAt (prevIsWord : Bool) (cs : List Char) : Bool :=
  if prevIsWord then false
  else
    let long :=
      match ciPrefix "warning".data cs with
      | some r => nonWordStart r
      | none => false
    let short :=
      match ciPrefix "warn".data cs with
      | some r => nonWordStart r
      | none => false
    long || short

def warnSearchAux (prevIsWord : Bool) (cs : List Char) : Bool :=
  warnTokenAt prevIsWord cs ||
    (match cs with
     | [] => false
     | c :: t => warnSearchAux (isWordCh c) t)

/-- re.search of `\bWARN(ING)?\b` with re.IGNORECASE. -/
def warnWordSearch (s : String) : Bool :=
  warnSearchAux false s.data

namespace models

/-! ## models.py: the PHP error-log parser and its cause inference -/

/-- Match of the timestamp part of _php_error_pattern:
  `\d{2}-[A-Za-z]{3}-\d{4}\s+\d{2}:\d{2}:\d{2}`.
Returns the matched characters (whitespace run included, exactly as the
`ts` group captures it) and the remainder. -/
def phpTsMatch (cs : List Char) : Option (List Char × List Char) :=
  match cs with
  | d1 :: d2 :: '-' :: a1 :: a2 :: a3 :: '-' :: y1 :: y2 :: y3 :: y4 :: rest =>
    if [d1, d2, y1, y2, y3, y4].all isDigitCh && [a1, a2, a3].all isAlphaCh then
      let sp := rest.takeWhile isSpaceCh
      if sp.isEmpty then none
      else
        match timeMatch (rest.drop sp.length) with
        | some (time, r2) =>
          some ([d1, d2, '-', a1, a2, a3, '-', y1, y2, y3, y4] ++ sp ++ time, r2)
        | none => none
    else none
  | _ => none

/-- The level alternation of _php_error_pattern, tried left to right with
the original matched text returned (the pattern is case-insensitive and
no alternative is a prefix of another). -/
def phpLevelAlt (alts : List String) (cs : List Char) : Option (List Char × List Char) :=
  match alts with
  | [] => none
  | a :: more =>
    match ciPrefix a.data cs with
    | some r => some (cs.take a.data.length, r)
    | none => phpLevelAlt more cs

def PHP_LEVEL_ALTS : List String :=
  ["Notice", "Warning", "Fatal error", "Parse error", "Deprecated", "Error"]

/-- Full match of _php_error_pattern
  `^\[(?P<ts>...)\s+(?P<tz>[^\]]+)\]\s+PHP\s+(?P<php_level>...):\s+(?P<rest>.*)`.
The `\s+[^\]]+\]` part succeeds exactly when the region before the first
closing bracket starts with whitespace and has at least two characters
(one for `\s+`, one for the greedy `[^\]]+`, which may itself consume
whitespace after backtracking); the tz group is not used by the caller.
Returns (ts, php_level, rest). -/
def phpPatternMatch (cs : List Char) : Option (List Char × List Char × List Char) :=
  match cs with
  | '[' :: r1 =>
    match phpTsMatch r1 with
    | none => none
    | some (ts, r2) =>
      match findSub r2 [']'] with
      | none => none
      | some k =>
        if k < 2 || !(isSpaceCh (r2.headD ']')) then none
        else
          let r3 := r2.drop (k + 1)
          let sp1 := r3.takeWhile isSpaceCh
          if sp1.isEmpty then none
          else
            match ciPrefix "PHP".data (r3.drop sp1.length) with
            | none => none
            | some r4 =>
              let sp2 := r4.takeWhile isSpaceCh
              if sp2.isEmpty then none
              else
                match phpLevelAlt PHP_LEVEL_ALTS (r4.drop sp2.length) with
                | none => none
                | some (lvl, r5) =>
                  match r5 with
                  | ':' :: r6 =>
                    let sp3 := r6.takeWhile isSpaceCh
                    if sp3.isEmpty then none
                    else some (ts, lvl, r6.drop sp3.length)
                  | _ => none
  | _ => none

/-- Month-abbreviation table of strptime %b (matched case-insensitively
by the standard library). -/
def STRPTIME_MONTHS : List (String × Nat) :=
  [("jan", 1), ("feb", 2), ("mar", 3), ("apr", 4), ("may", 5), ("jun", 6),
   ("jul", 7), ("aug", 8), ("sep", 9), ("oct", 10), ("nov", 11), ("dec", 12)]

/-- datetime.strptime(ts_str, "%d-%b-%Y %H:%M:%S"): whitespace in the
format matches a whitespace run, the whole input must be consumed, and
the field ranges are validated; any failure raises ValueError, modelled
as none. -/
def strptimePhpTs (s : String) : Option DateTime :=
  match s.data with
  | d1 :: d2 :: '-' :: a1 :: a2 :: a3 :: '-' :: y1 :: y2 :: y3 :: y4 :: rest =>
    if [d1, d2, y1, y2, y3, y4].all isDigitCh then
      match STRPTIME_MONTHS.lookup (String.mk ([a1, a2, a3].map lowerCh)) with
      | none => none
      | some mo =>
        let sp := rest.takeWhile isSpaceCh
        if sp.isEmpty then none
        else
          match rest.drop sp.length with
          | [h1, h2, ':', m1, m2, ':', s1, s2] =>
            if [h1, h2, m1, m2, s1, s2].all isDigitCh then
              let day := digitsToNat [d1, d2]
              let year := digitsToNat [y1, y2, y3, y4]
              let hour := digitsToNat [h1, h2]
              let minute := digitsToNat [m1, m2]
              let second := digitsToNat [s1, s2]
              if validDT year mo day hour minute second then
                some ⟨year, mo, day, hour, minute, second, 0⟩
              else none
            else none
          | _ => none
    else none
  | _ => none

/-- One octet of the IP pattern `\d{1,3}`: greedy, and since the
character after it in the pattern is never a digit, a digit run longer
than three can never match at this position. -/
def octetAt (cs : List Char) : Option (List Char × List Char) :=
  let run := cs.takeWhile isDigitCh
  if run.length == 0 || 3 < run.length then none
  else some (run, cs.drop run.length)

/-- Anchored match of `(\d{1,3}(?:\.\d{1,3}){3})\s+port\s+(\d+)` with
case-insensitive "port"; returns (ip text, port digits). -/
def ipPortAt (cs : List Char) : Option (String × String) :=
  match octetAt cs with
  | none => none
  | some (o1, r1) =>
    match r1 with
    | '.' :: r2 =>
      match octetAt r2 with
      | none => none
      | some (o2, r3) =>
        match r3 with
        | '.' :: r4 =>
          match octetAt r4 with
          | none => none
          | some (o3, r5) =>
            match r5 with
            | '.' :: r6 =>
              match octetAt r6 with
              | none => none
              | some (o4, r7) =>
                let sp1 := r7.takeWhile isSpaceCh
                if sp1.isEmpty then none
                else
                  match ciPrefix "port".data (r7.drop sp1.length) with
                  | none => none
                  | some r8 =>
                    let sp2 := r8.takeWhile isSpaceCh
                    if sp2.isEmpty then none
                    else
                      let port := (r8.drop sp2.length).takeWhile isDigitCh
                      if port.isEmpty then none
                      else
                        some (String.mk (o1 ++ '.' :: o2 ++ '.' :: o3 ++ '.' :: o4), String.mk port)
            | _ => none
        | _ => none
    | _ => none

/-- re.search of the IP/port pattern: first position at which the
anchored match succeeds. -/
def ipPortSearch (cs : List Char) : Option (String × String) :=
  match ipPortAt cs with
  | some r => some r
  | none =>
    match cs with
    | [] => none
    | _ :: t => ipPortSearch t

/-- Tail of the reason pattern `:\s*([^:]+)$` after a colon: it can
complete only when no further colon follows (the greedy `[^:]+` must
reach the end of the string); the greedy `\s*` leaves the tail without
its leading whitespace in the group, backtracking to a single whitespace
character when the tail is all whitespace. -/
def reasonTail (t : List Char) : Option (List Char) :=
  if t.isEmpty then none
  else if t.contains ':' then none
  else
    let g := t.dropWhile isSpaceCh
    if g.isEmpty then some [t.getLastD ' '] else some g

/-- re.search of `:\s*([^:]+)$`: leftmost colon whose tail completes. -/
def reasonSearch (cs : List Char) : Option (List Char) :=
  match cs with
  | [] => none
  | ':' :: t =>
    match reasonTail t with
    | some g => some g
    | none => reasonSearch t
  | _ :: t => reasonSearch t

/-- The dict returned by parse_php_error_line (no source or host). The
cause fields are typed optional exactly as the local variables start out
as None in the source. -/
structure PhpParsed where
  timestamp : String
  level : String
  message : String
  cause_group : Option String
  cause_reason : Option String
  cause_action : Option String
deriving DecidableEq, Repr

/-- The msg_main computation of parse_php_error_line: the index is found
by str.find of " in " over the LOWERCASED rest (so the occurrence is
located case-insensitively), and the prefix of the original rest before
that index is stripped; the whole rest is kept when there is no
occurrence. -/
def msg_main_of (rest : String) : String :=
  match findSub (rest.data.map lowerCh) " in ".data with
  | some i => pyStrip (String.mk (rest.data.take i))
  | none => rest

/-- parse_php_error_line of models.py; now models datetime.utcnow(). -/
def parse_php_error_line (line : String)
    (now : DateTime := ⟨2025, 1, 1, 0, 0, 0, 0⟩) : Option PhpParsed :=
  match phpPatternMatch line.data with
  | none => none
  | some (tsCs, phpLevelCs, restCs) =>
    let rest := pyStrip (String.mk restCs)
    let timestamp :=
      match strptimePhpTs (String.mk tsCs) with
      | some dt => strftimeYmdHMS dt
      | none => strftimeYmdHMS now
    let pl := lowerStr (String.mk phpLevelCs)
    let level :=
      if pyContains pl "fatal" || pyContains pl "error" then "ERROR"
      else if pyContains pl "warning" then "WARNING"
      else if pyContains pl "notice" then "WARNING"
      else "INFO"
    let ipPort := ipPortSearch rest.data
    let msg_main := msg_main_of rest
    if pyContains (lowerStr rest) "curl error" || ipPort.isSome then
      match ipPort with
      | some (ip, port) =>
        let human_reason :=
          match reasonSearch msg_main.data with
          | some g => pyStrip (String.mk g)
          | none => "Erro de conexão"
        some { timestamp := timestamp, level := level, message := rest,
               cause_group := some "network",
               cause_reason := some ("cURL falhou ao conectar em " ++ ip ++ ":" ++ port
                 ++ " (" ++ human_reason ++ ")"),
               cause_action := some ("Verificar serviço/porta " ++ port ++ " em " ++ ip
                 ++ " (controller / backend) ou regras de firewall") }
      | none =>
        some { timestamp := timestamp, level := level, message := rest,
               cause_group := some "network",
               cause_reason := some msg_main,
               cause_action := some "Verificar conectividade de rede/serviço referenciado pelo cURL" }
    else
      some { timestamp := timestamp, level := level, message := rest,
             cause_group := some "aplicacao",
             cause_reason := some msg_main,
             cause_action := some "Avaliar stack trace e corrigir causa raiz no código PHP" }

/-! ## models.py: plaintext/upload ingestion (still in namespace models) -/

/-- The level_patterns dict of ingest_plaintext_log, in its insertion
order; CPython dicts iterate in insertion order, so the classification
loop below tests the patterns in exactly this order.  The WARNING entry
is the pattern `\bWARN(ING)?\b`; the others are plain `\bTOK\b`. -/
def level_patterns : List (String × (String → Bool)) :=
  [("ERROR", fun l => wordSearchCI "ERROR" l),
   ("WARNING", fun l => warnWordSearch l),
   ("INFO", fun l => wordSearchCI "INFO" l),
   ("CRITICAL", fun l => wordSearchCI "CRITICAL" l),
   ("NOTICE", fun l => wordSearchCI "NOTICE" l)]

/-- The severity loop of ingest_plaintext_log: level starts as INFO and
the first pattern that fires anywhere in the line sets it (lvl.upper())
and breaks. -/
def classifyLevel (line : String) : String :=
  match level_patterns.find? (fun p => p.2 line) with
  | some p => upperStr p.1
  | none => "INFO"

/-- Match of ts_regex `^(\d{4}-\d{2}-\d{2}[ T]\d{2}:\d{2}:\d{2})`,
returning the matched 19-character group. -/
def isoTsMatch (cs : List Char) : Option (List Char) :=
  match cs with
  | y1 :: y2 :: y3 :: y4 :: '-' :: m1 :: m2 :: '-' :: d1 :: d2 :: sep :: rest =>
    if [y1, y2, y3, y4, m1, m2, d1, d2].all isDigitCh && (sep == ' ' || sep == 'T') then
      match timeMatch rest with
      | some (time, _) =>
        some ([y1, y2, y3, y4, '-', m1, m2, '-', d1, d2, sep] ++ time)
      | none => none
    else none
  | _ => none

/-- insert_log of models.py: appends one row to the logs table,
modelled as a list of records. -/
def insert_log (store : List LogRecord) (r : LogRecord) : List LogRecord :=
  store ++ [r]

/-- The per-line body of ingest_plaintext_log (text-mode stream, so the
line is already a string; blank lines are skipped after stripping).  The
PHP parser is tried first; otherwise the generic fallback splits off a
leading ISO timestamp or stamps the current UTC instant, and classifies
severity with the level_patterns loop. -/
def ingest_plaintext_line (now : DateTime) (source default_host : String)
    (store : List LogRecord) (raw : String) : List LogRecord :=
  let line := pyStrip raw
  if line == "" then store
  else
    match parse_php_error_line line now with
    | some p =>
      insert_log store
        { timestamp := p.timestamp, source := source, level := p.level,
          host := default_host, message := p.message,
          cause_group := p.cause_group, cause_reason := p.cause_reason,
          cause_action := p.cause_action }
    | none =>
      let tm :=
        match isoTsMatch line.data with
        | some ts => (String.mk ts, pyStrip (String.mk (line.data.drop ts.length)))
        | none => (strftimeYmdHMS now, line)
      let level := classifyLevel line
      insert_log store
        { timestamp := tm.1, source := source, level := level,
          host := default_host, message := tm.2,
          cause_group := none, cause_reason := none, cause_action := none }

/-- ingest_plaintext_log over a whole stream of lines. -/
def ingest_plaintext_log (stream : List String) (source : String := "upload")
    (default_host : String := "upload-host")
    (now : DateTime := ⟨2025, 1, 1, 0, 0, 0, 0⟩) : List LogRecord :=
  stream.foldl (ingest_plaintext_line now source default_host) []

end models

namespace ingest

/-! ## ingest.py: per-source ingestion steps

Each step is the body of the for-loop of the corresponding ingestion
function, threading the store; the loop first strips trailing newlines
from the raw line. -/

/-- One loop iteration of ingest_syslog; the error case propagates the
uncaught ValueError of the syslog parser. -/
def ingest_syslog_line (now : DateTime) (store : List LogRecord)
    (line : String) : Except Unit (List LogRecord) :=
  match parser_linux.parse_syslog_line (pyRstripNl line) none now with
  | .error e => .error e
  | .ok none => .ok store
  | .ok (some r) =>
    .ok (models.insert_log store { timestamp := r.timestamp, source := r.source,
                                   level := r.level, host := r.host, message := r.message })

/-- One loop iteration of ingest_zabbix_server.  The guard
`if not parsed: continue` of the source never fires: the parser always
returns a non-empty dict, which is truthy, so every line is inserted. -/
def ingest_zabbix_server_line (now : DateTime) (host : String)
    (store : List LogRecord) (line : String) : Except Unit (List LogRecord) :=
  match parser_zabbix_server.parse_zabbix_server_line (pyRstripNl line) host now with
  | .error e => .error e
  | .ok r =>
    .ok (models.insert_log store { timestamp := r.timestamp, source := r.source,
                                   level := r.level, host := r.host, message := r.message })

end ingest

/-- Python truthiness of an optional string: None and the empty string
are falsy. -/
def pyTruthy (v : Option String) : Bool :=
  match v with
  | some s => s != ""
  | none => false

namespace models

/-! ## models.py: the format sniffer is_probably_log -/

/-- A readable text stream with an explicit read position; read, tell
and seek below model the file-object operations used by the sniffer. -/
structure TextStream where
  content : List Char
  pos : Nat
deriving DecidableEq, Repr

/-- stream.read(n) of a text stream: at most n characters from the
current position, advancing it. -/
def streamRead (s : TextStream) (n : Nat) : List Char × TextStream :=
  ((s.content.drop s.pos).take n, ⟨s.content, min (s.pos + n) s.content.length⟩)

/-- Line-break characters of str.splitlines. -/
def isLineBreakCh (c : Char) : Bool :=
  c == '\n' || c == '\x0d' || c == '\x0b' || c == '\x0c' ||
  c == '\x1c' || c == '\x1d' || c == '\x1e' || c == '\x85' ||
  c == ' ' || c == ' '

/-- str.splitlines: CRLF counts as one break, and a trailing break adds
no empty final line. -/
def pySplitlinesAux (acc : List Char) (cs : List Char) : List (List Char) :=
  match cs with
  | [] => if acc.isEmpty then [] else [acc.reverse]
  | '\x0d' :: '\n' :: t => acc.reverse :: pySplitlinesAux [] t
  | c :: t =>
    if isLineBreakCh c then acc.reverse :: pySplitlinesAux [] t
    else pySplitlinesAux (c :: acc) t

def pySplitlines (cs : List Char) : List (List Char) :=
  pySplitlinesAux [] cs

/-- php_ts_pattern of the sniffer,
`^\[\d{2}-[A-Za-z]{3}-\d{4}\s+\d{2}:\d{2}:\d{2}\s+[^]]+\]`; the pattern
is anchored, so re.search succeeds only at the line start.  The bracket
region condition is as in phpPatternMatch. -/
def phpTsLineMatch (cs : List Char) : Bool :=
  match cs with
  | '[' :: r1 =>
    (match phpTsMatch r1 with
     | none => false
     | some (_, r2) =>
       match findSub r2 [']'] with
       | none => false
       | some k => decide (2 ≤ k) && isSpaceCh (r2.headD ']'))
  | _ => false

def spaceDigitCh (c : Char) : Bool := c == ' ' || isDigitCh c

/-- Backtracking over the length j of the first `\s+` of
syslog_ts_pattern (the following `[ 0-9]{2}` may itself consume
whitespace, so the split is not unique); each choice then requires two
class characters, a further mandatory whitespace run and a time. -/
def syslogTsTryK (cs : List Char) : Nat → Bool
  | 0 => false
  | j + 1 =>
    (match cs.drop (j + 1) with
     | c1 :: c2 :: r2 =>
       spaceDigitCh c1 && spaceDigitCh c2 &&
         (let sp2 := r2.takeWhile isSpaceCh
          !sp2.isEmpty && (timeMatch (r2.drop sp2.length)).isSome)
     | _ => false)
    || syslogTsTryK cs j

/-- syslog_ts_pattern of the sniffer,
`^[A-Z][a-z]{2}\s+[ 0-9]{2}\s+\d{2}:\d{2}:\d{2}` (anchored). -/
def syslogTsLineMatch (cs : List Char) : Bool :=
  match cs with
  | c1 :: c2 :: c3 :: rest =>
    isUpperCh c1 && isLowerCh c2 && isLowerCh c3 &&
      syslogTsTryK rest (rest.takeWhile isSpaceCh).length
  | _ => false

/-- level_keywords of the sniffer,
`\b(ERROR|WARN(ING)?|INFO|CRITICAL|NOTICE|EXCEPTION)\b` (IGNORECASE):
every alternative starts and ends in word characters, so the search is
the disjunction of the per-token word searches. -/
def sniffLevelKeyword (s : String) : Bool :=
  wordSearchCI "ERROR" s || warnWordSearch s || wordSearchCI "INFO" s ||
  wordSearchCI "CRITICAL" s || wordSearchCI "NOTICE" s || wordSearchCI "EXCEPTION" s

/-- One line of the sniffer scoring loop: lines shorter than 15
characters are skipped; otherwise a timestamp shape at the start or a
severity keyword anywhere scores. -/
def scoreLine (ln : String) : Bool :=
  if ln.length < 15 then false
  else
    phpTsLineMatch ln.data || (isoTsMatch ln.data).isSome
      || syslogTsLineMatch ln.data || sniffLevelKeyword ln

/-- The body of is_probably_log over the snapshot of the prefix (the
text-stream case: read returns str, so the bytes branch of the source is
not exercised and text = str(chunk) = chunk).  For at most 20 considered
lines the float test scored / considered >= 0.3 agrees exactly with
10 * scored >= 3 * considered: the rationals involved have denominator
at most 20, so they are never within double rounding error of 0.3
without being exactly 3/10, whose double is the constant itself. -/
def isProbablyLogText (chunk : List Char) (filename : Option String) : Bool :=
  if chunk.isEmpty then false
  else
    let lines := ((pySplitlines chunk).map (fun l => pyStrip (String.mk l))).filter (fun l => l != "")
    if lines.isEmpty then false
    else
      let considered := lines.take 20
      let scored := (considered.filter scoreLine).length
      if 2 ≤ scored then true
      else if 3 * considered.length ≤ 10 * scored then true
      else
        match filename with
        | some fname =>
          let f := lowerStr fname
          (pyEndsWith f ".log" || pyEndsWith f ".txt" || pyEndsWith f ".out" || pyEndsWith f ".err")
            && 1 ≤ scored
        | none => false

/-- is_probably_log: remembers tell(), reads at most max_bytes, seeks
back, and decides on the snapshot; the returned stream is the stream
after the final seek. -/
def is_probably_log (stream : TextStream) (filename : Option String := none)
    (max_bytes : Nat := 8192) : Bool × TextStream :=
  let pos_before := stream.pos
  let rd := streamRead stream max_bytes
  let stream2 : TextStream := ⟨rd.2.content, pos_before⟩
  (isProbablyLogText rd.1 filename, stream2)

end models

namespace analyzer

/-! ## analyzer.py: predicate construction and SQL LIKE semantics -/

/-- The optional filter criteria shared by filter_logs, filter_hosts and
top_errors (until is spelled until_ because of Lean parsing). -/
structure FilterArgs where
  level : Option String := none
  contains : Option String := none
  host : Option String := none
  source : Option String := none
  since : Option String := none
  until_ : Option String := none
deriving DecidableEq, Repr

/-- _build_where: one clause and one parameter per truthy criterion; the
contains criterion becomes `message LIKE ?` with parameter
"%" + contains + "%" and no escaping of the wildcards. -/
def build_where (f : FilterArgs) : String × List String :=
  let wp : List String × List String := (["1=1"], [])
  let wp := if pyTruthy f.level then (wp.1 ++ ["level = ?"], wp.2 ++ [f.level.getD ""]) else wp
  let wp := if pyTruthy f.contains then
      (wp.1 ++ ["message LIKE ?"], wp.2 ++ ["%" ++ f.contains.getD "" ++ "%"]) else wp
  let wp := if pyTruthy f.host then (wp.1 ++ ["host = ?"], wp.2 ++ [f.host.getD ""]) else wp
  let wp := if pyTruthy f.source then (wp.1 ++ ["source = ?"], wp.2 ++ [f.source.getD ""]) else wp
  let wp := if pyTruthy f.since then (wp.1 ++ ["timestamp >= ?"], wp.2 ++ [f.since.getD ""]) else wp
  let wp := if pyTruthy f.until_ then (wp.1 ++ ["timestamp <= ?"], wp.2 ++ [f.until_.getD ""]) else wp
  (String.intercalate " AND " wp.1, wp.2)

/-- SQLite LIKE without an ESCAPE clause: % matches any sequence
(tried against every suffix of the text), _ matches any single
character, other characters compare ASCII-case-insensitively. -/
def likeMatch (ps cs : List Char) : Bool :=
  match ps with
  | [] => cs.isEmpty
  | '%' :: ps2 => cs.tails.any (fun t => likeMatch ps2 t)
  | '_' :: ps2 =>
    match cs with
    | [] => false
    | _ :: cs2 => likeMatch ps2 cs2
  | p :: ps2 =>
    match cs with
    | [] => false
    | c :: cs2 => (lowerCh p == lowerCh c) && likeMatch ps2 cs2

/-- The meaning of the WHERE clause built by build_where, evaluated by
the SQL engine on one stored record: a conjunct per truthy criterion,
with `message LIKE ?` interpreted by likeMatch on the built pattern and
timestamp bounds as text comparisons. -/
def rowMatches (f : FilterArgs) (r : LogRecord) : Bool :=
  (!pyTruthy f.level || r.level == f.level.getD "") &&
  (!pyTruthy f.contains || likeMatch ("%" ++ f.contains.getD "" ++ "%").data r.message.data) &&
  (!pyTruthy f.host || r.host == f.host.getD "") &&
  (!pyTruthy f.source || r.source == f.source.getD "") &&
  (!pyTruthy f.since || decide (f.since.getD "" ≤ r.timestamp)) &&
  (!pyTruthy f.until_ || decide (r.timestamp ≤ f.until_.getD ""))

end analyzer

namespace cli

/-! ## cli.py: filter presets -/

/-- One preset entry: a partial dict with at most level and contains. -/
structure Preset where
  level : Option String := none
  contains : Option String := none
deriving DecidableEq, Repr

/-- The args namespace fields read and written by _apply_preset and the
filter commands. -/
structure Args where
  preset : Option String := none
  level : Option String := none
  contains : Option String := none
  host : Option String := none
  source : Option String := none
  since : Option String := none
  until_ : Option String := none
deriving DecidableEq, Repr

/-- PRESETS of cli.py: the fixed named mapping; absence of a key in the
source dict is modelled by none. -/
def PRESETS : List (String × Preset) :=
  [("email", { level := some "ERROR", contains := some "failed to send email" }),
   ("network", { contains := some "network" }),
   ("proxy", { contains := some "proxy" }),
   ("agent", { contains := some "Zabbix agent" }),
   ("db", { contains := some "database" })]

/-- _apply_preset: unchanged args when preset is falsy; otherwise the
preset (an unknown name yields the empty dict) fills level and contains
only where the caller supplied None, and touches nothing else. -/
def apply_preset (args : Args) : Args :=
  if !pyTruthy args.preset then args
  else
    let preset := (PRESETS.lookup (args.preset.getD "")).getD {}
    let args :=
      if args.level == none && preset.level.isSome then
        { args with level := preset.level } else args
    if args.contains == none && preset.contains.isSome then
      { args with contains := preset.contains } else args

end cli

/-! ## Invariant and specification-side predicates used by the theorems -/

/-- The record invariant of the spec, minus message non-emptiness (which
the code violates, see the C2 theorems): non-empty timestamp, level and
host, and the three cause fields all present or all absent together. -/
def recInvariant (r : LogRecord) : Prop :=
  r.timestamp ≠ "" ∧ r.level ≠ "" ∧ r.host ≠ "" ∧
    ((r.cause_group.isSome = true ∧ r.cause_reason.isSome = true ∧ r.cause_action.isSome = true)
      ∨ (r.cause_group = none ∧ r.cause_reason = none ∧ r.cause_action = none))

/-- Specification-side description (independent of findSub) of "the
first case-insensitive occurrence of the literal " in " is at index i":
the needle occurs in the lowercased text at i and at no earlier index. -/
def ciInOccursAt (rest : String) (i : Nat) : Prop :=
  " in ".data.isPrefixOf ((rest.data.map lowerCh).drop i) = true ∧
    ∀ j, j < i → " in ".data.isPrefixOf ((rest.data.map lowerCh).drop j) = false

/-! # Theorems for the claims -/

/-- C5: for every input line that does not match the Zabbix daemon
structural pattern, both the server and the proxy parser still return a
record (never an error, never a decline), with a source tag ending in
"_raw", message equal to the trimmed line, the current instant as
timestamp, and the level computed by the same severity-guess rules. -/
theorem c5_raw_fallback (line host : String) (now : DateTime)
    (h : zbxDaemonMatch (pyRstripNl line).data = none) :
    parser_zabbix_server.parse_zabbix_server_line line host now =
      Except.ok { timestamp := isoformatSp now, source := "zabbix_server_raw",
                  level := parser_zabbix_server.guess_level (pyStrip (pyRstripNl line)),
                  host := host, message := pyStrip (pyRstripNl line) } ∧
    parser_zabbix_proxy.parse_zabbix_proxy_line line host now =
      Except.ok { timestamp := isoformatSp now, source := "zabbix_proxy_raw",
                  level := parser_zabbix_proxy.guess_level (pyStrip (pyRstripNl line)),
                  host := host, message := pyStrip (pyRstripNl line) } ∧
    pyEndsWith "zabbix_server_raw" "_raw" = true ∧
    pyEndsWith "zabbix_proxy_raw" "_raw" = true := by
  refine ⟨?_, ?_, by decide, by decide⟩
  · simp only [parser_zabbix_server.parse_zabbix_server_line, h]
  · simp only [parser_zabbix_proxy.parse_zabbix_proxy_line, h]

/-- Witness for c5_raw_fallback at a concrete non-matching line. -/
theorem c5_raw_fallback_witness :
    parser_zabbix_server.parse_zabbix_server_line "hello world" "zabbix-server" ⟨2026, 10, 12, 3, 4, 5, 123⟩ =
      Except.ok { timestamp := isoformatSp ⟨2026, 10, 12, 3, 4, 5, 123⟩, source := "zabbix_server_raw",
                  level := parser_zabbix_server.guess_level (pyStrip (pyRstripNl "hello world")),
                  host := "zabbix-server", message := pyStrip (pyRstripNl "hello world") } ∧
    parser_zabbix_proxy.parse_zabbix_proxy_line "hello world" "zabbix-server" ⟨2026, 10, 12, 3, 4, 5, 123⟩ =
      Except.ok { timestamp := isoformatSp ⟨2026, 10, 12, 3, 4, 5, 123⟩, source := "zabbix_proxy_raw",
                  level := parser_zabbix_proxy.guess_level (pyStrip (pyRstripNl "hello world")),
                  host := "zabbix-server", message := pyStrip (pyRstripNl "hello world") } ∧
    pyEndsWith "zabbix_server_raw" "_raw" = true ∧
    pyEndsWith "zabbix_proxy_raw" "_raw" = true :=
  c5_raw_fallback "hello world" "zabbix-server" ⟨2026, 10, 12, 3, 4, 5, 123⟩ (by decide)

/-- C6: on the concrete PHP cURL line, the PHP parser yields level
WARNING (Notice maps to WARNING, not INFO), cause_group "network", and a
cause_reason containing both "192.168.0.204:8443" and
"Connection refused". -/
theorem c6_php_curl_example :
    models.parse_php_error_line
        "[02-Oct-2025 15:59:40 Europe/Berlin] PHP Notice: cURL error: Failed to connect to 192.168.0.204 port 8443: Connection refused in /x.php"
        ⟨2026, 1, 1, 0, 0, 0, 0⟩ =
      some { timestamp := "2025-10-02 15:59:40", level := "WARNING",
             message := "cURL error: Failed to connect to 192.168.0.204 port 8443: Connection refused in /x.php",
             cause_group := some "network",
             cause_reason := some "cURL falhou ao conectar em 192.168.0.204:8443 (Connection refused)",
             cause_action := some "Verificar serviço/porta 8443 em 192.168.0.204 (controller / backend) ou regras de firewall" } ∧
    pyContains "cURL falhou ao conectar em 192.168.0.204:8443 (Connection refused)" "192.168.0.204:8443" = true ∧
    pyContains "cURL falhou ao conectar em 192.168.0.204:8443 (Connection refused)" "Connection refused" = true := by
  refine ⟨by decide, by decide, by decide⟩

/-- C8: the format sniffer is a pure predicate over the snapshot of the
prefix: a call leaves the read position exactly where it was, and a
second call on the resulting stream returns the same boolean and the
same stream. -/
theorem c8_sniffer_idempotent (s : models.TextStream) (fn : Option String) :
    (models.is_probably_log s fn).2 = s ∧
    models.is_probably_log (models.is_probably_log s fn).2 fn =
      models.is_probably_log s fn :=
  ⟨rfl, rfl⟩

/-- Witness for c8_sniffer_idempotent at a concrete stream. -/
theorem c8_sniffer_idempotent_witness :
    (models.is_probably_log ⟨"2025-01-01 10:00:00 ERROR boom".data, 0⟩ (some "a.log")).2 =
      ⟨"2025-01-01 10:00:00 ERROR boom".data, 0⟩ ∧
    models.is_probably_log (models.is_probably_log ⟨"2025-01-01 10:00:00 ERROR boom".data, 0⟩ (some "a.log")).2 (some "a.log") =
      models.is_probably_log ⟨"2025-01-01 10:00:00 ERROR boom".data, 0⟩ (some "a.log") :=
  c8_sniffer_idempotent ⟨"2025-01-01 10:00:00 ERROR boom".data, 0⟩ (some "a.log")

/-- C9: the contains criterion is compiled to the LIKE pattern
"%" + contains + "%" with no escaping (shown in the built clause and
parameter list), and under SQLite LIKE semantics the stored message
"abc" matches contains = "a_c" although "a_c" is not a literal substring
of "abc" (the underscore acts as a single-character wildcard). -/
theorem c9_like_wildcards :
    (analyzer.build_where { contains := some "a_c" }).1 = "1=1 AND message LIKE ?" ∧
    (analyzer.build_where { contains := some "a_c" }).2 = ["%a_c%"] ∧
    analyzer.likeMatch "%a_c%".data "abc".data = true ∧
    analyzer.rowMatches { contains := some "a_c" }
      { timestamp := "2025-01-01 00:00:00", source := "upload", level := "ERROR",
        host := "h1", message := "abc" } = true ∧
    pyContains "abc" "a_c" = false := by
  refine ⟨by decide, by decide, by decide, by decide, by decide⟩

/-- C7: in the preset merge, a caller-supplied (non-null) level or
contains value is preserved unchanged; the preset changes no field other
than level and contains; a looked-up preset determines exactly the
fields the caller left unset; and the concrete merge of explicit
level=INFO with preset "email" resolves to level INFO and
contains "failed to send email". -/
theorem c7_preset_merge (args : cli.Args) :
    (∀ v, args.level = some v → (cli.apply_preset args).level = some v) ∧
    (∀ v, args.contains = some v → (cli.apply_preset args).contains = some v) ∧
    (cli.apply_preset args).host = args.host ∧
    (cli.apply_preset args).source = args.source ∧
    (cli.apply_preset args).since = args.since ∧
    (cli.apply_preset args).until_ = args.until_ ∧
    (cli.apply_preset args).preset = args.preset ∧
    (∀ p pr, args.preset = some p → p ≠ "" → cli.PRESETS.lookup p = some pr →
      (args.level = none → (cli.apply_preset args).level = pr.level) ∧
      (args.contains = none → (cli.apply_preset args).contains = pr.contains)) ∧
    cli.apply_preset { preset := some "email", level := some "INFO" } =
      { preset := some "email", level := some "INFO", contains := some "failed to send email" } := by
  obtain ⟨pre, lv, ct, ho, so, si, un⟩ := args
  refine ⟨?_, ?_, ?_, ?_, ?_, ?_, ?_, ?_, by decide⟩
  · intro v hv
    subst hv
    simp only [cli.apply_preset]
    split
    · rfl
    · split <;> split <;> simp_all
  · intro v hv
    subst hv
    simp only [cli.apply_preset]
    split
    · rfl
    · split <;> split <;> simp_all
  · simp only [cli.apply_preset]
    split
    · rfl
    · split <;> split <;> rfl
  · simp only [cli.apply_preset]
    split
    · rfl
    · split <;> split <;> rfl
  · simp only [cli.apply_preset]
    split
    · rfl
    · split <;> split <;> rfl
  · simp only [cli.apply_preset]
    split
    · rfl
    · split <;> split <;> rfl
  · simp only [cli.apply_preset]
    split
    · rfl
    · split <;> split <;> rfl
  · intro p pr hp hpne hlook
    subst hp
    have htr : pyTruthy (some p) = true := by
      simp [pyTruthy, hpne]
    constructor
    · intro hlv
      subst hlv
      simp only [cli.apply_preset, htr, Bool.not_true, Bool.false_eq_true, if_false,
        Option.getD_some, hlook]
      cases hpl : pr.level <;> simp [hpl] <;> split <;> simp_all
    · intro hct
      subst hct
      simp only [cli.apply_preset, htr, Bool.not_true, Bool.false_eq_true, if_false,
        Option.getD_some, hlook]
      cases hpc : pr.contains <;> simp [hpc] <;> split <;> simp_all

/-- Witness for c7_preset_merge: explicit level INFO survives the email
preset. -/
theorem c7_preset_merge_witness :
    (cli.apply_preset { preset := some "email", level := some "INFO" }).level = some "INFO" :=
  (c7_preset_merge { preset := some "email", level := some "INFO" }).1 "INFO" rfl

/-- C10: the generic fallback classifier tests the whole-word
case-insensitive patterns in the insertion order ERROR, WARNING, INFO,
CRITICAL, NOTICE and takes the first match (default INFO); hence a
non-blank uploaded line containing both INFO and CRITICAL as whole words
but no ERROR or WARN(ING) token, and not matching the PHP pattern, is
stored with level INFO, not CRITICAL. -/
theorem c10_fallback_priority (now : DateTime) (source dhost raw : String)
    (store : List LogRecord)
    (h1 : wordSearchCI "INFO" (pyStrip raw) = true)
    (h2 : wordSearchCI "CRITICAL" (pyStrip raw) = true)
    (h3 : wordSearchCI "ERROR" (pyStrip raw) = false)
    (h4 : warnWordSearch (pyStrip raw) = false)
    (h5 : models.parse_php_error_line (pyStrip raw) now = none)
    (h6 : pyStrip raw ≠ "") :
    models.classifyLevel (pyStrip raw) = "INFO" ∧
    ∀ r ∈ models.ingest_plaintext_line now source dhost store raw,
      r ∈ store ∨ r.level = "INFO" := by
  have hcl : models.classifyLevel (pyStrip raw) = "INFO" := by
    simp [models.classifyLevel, models.level_patterns, List.find?, h1, h3, h4]
    decide
  refine ⟨hcl, ?_⟩
  intro r hr
  simp only [models.ingest_plaintext_line, h5] at hr
  rw [if_neg (by simp [h6])] at hr
  simp only [models.insert_log, List.mem_append, List.mem_singleton] at hr
  rcases hr with hr | hr
  · exact Or.inl hr
  · subst hr
    exact Or.inr hcl

/-- Witness for c10_fallback_priority at the line "x INFO CRITICAL y". -/
theorem c10_fallback_priority_witness :
    models.classifyLevel (pyStrip "x INFO CRITICAL y") = "INFO" :=
  (c10_fallback_priority ⟨2025, 1, 1, 0, 0, 0, 0⟩ "upload" "upload-host"
    "x INFO CRITICAL y" [] (by decide) (by decide) (by decide) (by decide)
    (by decide) (by decide)).1

/-- C3 counterexample: on the very line of the claim, with the current
instant in 2026, the syslog parser returns level INFO, not the claimed
ERROR: the syslog severity rules know CRIT/FATAL/ERROR/ERR/WARN but not
FAILED, so "something failed" falls through to INFO. -/
theorem c3_counterexample :
    parser_linux.parse_syslog_line "Nov 27 15:30:45 host1 something failed" none
        ⟨2026, 3, 1, 0, 0, 0, 0⟩ =
      Except.ok (some { timestamp := "2026-11-27 15:30:45", source := "syslog",
                        level := "INFO", host := "host1", message := "something failed" }) ∧
    ("INFO" : String) ≠ "ERROR" :=
  ⟨rfl, by decide⟩

/-- C3 amended: for the syslog line "Nov 27 15:30:45 host1 something
failed" the parser yields host "host1", message "something failed", a
November 27, 15:30:45 timestamp whose year defaults to the current
system year when the caller supplies no year, and level INFO (not
ERROR: "failed" is not a recognized severity keyword of this parser). -/
theorem c3_syslog_example (now : DateTime) (h1 : 1 ≤ now.year) (h2 : now.year ≤ 9999) :
    parser_linux.parse_syslog_line "Nov 27 15:30:45 host1 something failed" none now =
      Except.ok (some { timestamp := isoformatSp ⟨now.year, 11, 27, 15, 30, 45, 0⟩,
                        source := "syslog", level := "INFO", host := "host1",
                        message := "something failed" }) := by
  have hmatch : parser_linux.syslogMatch ("Nov 27 15:30:45 host1 something failed").data =
      some ("Nov".data, "27".data, "15:30:45".data, "host1".data, "something failed".data) := by
    decide
  have hmk : mkDatetime now.year 11 27 15 30 45 = .ok ⟨now.year, 11, 27, 15, 30, 45, 0⟩ := by
    unfold mkDatetime
    rw [if_pos]
    simp [validDT, daysInMonth, h1, h2]
  have hstrip : pyStrip (String.mk "something failed".data) = "something failed" := by decide
  have hlvl : parser_linux.guess_level "something failed" = "INFO" := by decide
  have hlook : parser_linux.MONTHS.lookup (String.mk "Nov".data) = some 11 := by decide
  have hday : digitsToNat "27".data = 27 := by decide
  have hh : digitsToNat ("15:30:45".data.take 2) = 15 := by decide
  have hm : digitsToNat (("15:30:45".data.drop 3).take 2) = 30 := by decide
  have hs : digitsToNat (("15:30:45".data.drop 6).take 2) = 45 := by decide
  simp only [parser_linux.parse_syslog_line, hmatch, hlook, Option.getD_some, hstrip,
    hlvl, hday, hh, hm, hs, hmk]

/-- Witness for c3_syslog_example at a concrete current instant. -/
theorem c3_syslog_example_witness :
    parser_linux.parse_syslog_line "Nov 27 15:30:45 host1 something failed" none
        ⟨2027, 6, 2, 1, 2, 3, 0⟩ =
      Except.ok (some { timestamp := isoformatSp ⟨2027, 11, 27, 15, 30, 45, 0⟩,
                        source := "syslog", level := "INFO", host := "host1",
                        message := "something failed" }) :=
  c3_syslog_example ⟨2027, 6, 2, 1, 2, 3, 0⟩ (by decide) (by decide)

/-! ## Helper lemmas about blank (whitespace-only) lines -/

theorem isSpaceCh_not_word (c : Char) (h : isSpaceCh c = true) : isWordCh c = false := by
  simp [isSpaceCh] at h
  rcases h with ((((h | h) | h) | h) | h) | h <;> subst h <;> decide

theorem allSpace_dropWhile_nil (l : List Char) (h : l.all isSpaceCh = true) :
    l.dropWhile isSpaceCh = [] := by
  induction l with
  | nil => rfl
  | cons c t ih =>
    rw [List.all_cons, Bool.and_eq_true] at h
    simp [List.dropWhile, h.1, ih h.2]

theorem allSpace_pyStrip (s : String) (h : s.data.all isSpaceCh = true) : pyStrip s = "" := by
  unfold pyStrip
  rw [allSpace_dropWhile_nil _ h]
  rfl

theorem allSpace_rstripNl (s : String) (h : s.data.all isSpaceCh = true) :
    (pyRstripNl s).data.all isSpaceCh = true := by
  unfold pyRstripNl
  rw [List.all_eq_true] at h ⊢
  intro c hc
  apply h
  rw [List.mem_reverse] at hc
  exact List.mem_reverse.mp ((List.dropWhile_sublist _).mem hc)

theorem allSpace_syslogMatch_none (l : List Char) (h : l.all isSpaceCh = true) :
    parser_linux.syslogMatch l = none := by
  cases l with
  | nil => rfl
  | cons c t =>
    have hcw : isWordCh c = false := isSpaceCh_not_word c (by
      rw [List.all_cons, Bool.and_eq_true] at h
      exact h.1)
    simp [parser_linux.syslogMatch, hcw]

theorem allSpace_zbxMatch_none (l : List Char) (h : l.all isSpaceCh = true) :
    zbxDaemonMatch l = none := by
  have hd : l.dropWhile isSpaceCh = [] := allSpace_dropWhile_nil l h
  simp [zbxDaemonMatch, hd]

/-- C1 counterexample: a blank line fed to the ingest.py Zabbix-server
ingestion step is persisted (as a zabbix_server_raw record with empty
message), so the number of persisted records changes from 0 to 1. -/
theorem c1_counterexample :
    ingest.ingest_zabbix_server_line ⟨2026, 10, 12, 3, 4, 5, 123⟩ "zabbix-server" [] "" =
      Except.ok [{ timestamp := "2026-10-12 03:04:05.000123", source := "zabbix_server_raw",
                   level := "INFO", host := "zabbix-server", message := "" }] ∧
    ([{ timestamp := "2026-10-12 03:04:05.000123", source := "zabbix_server_raw",
        level := "INFO", host := "zabbix-server", message := "" }] : List LogRecord).length ≠
      ([] : List LogRecord).length :=
  ⟨rfl, by decide⟩

/-- C1 amended: for every blank (empty or whitespace-only) line, the
syslog ingestion step and the free-text/upload ingestion step write
nothing and do not error, but the Zabbix-server ingestion step persists
exactly one raw record with empty message (its parser never declines,
and the per-line loop has no blank-line guard). -/
theorem c1_blank_lines (now : DateTime) (hostAlias source dhost line : String)
    (store : List LogRecord) (h : line.data.all isSpaceCh = true) :
    ingest.ingest_syslog_line now store line = Except.ok store ∧
    models.ingest_plaintext_line now source dhost store line = store ∧
    ingest.ingest_zabbix_server_line now hostAlias store line =
      Except.ok (store ++ [{ timestamp := isoformatSp now, source := "zabbix_server_raw",
                             level := "INFO", host := hostAlias, message := "" }]) := by
  have hr : (pyRstripNl line).data.all isSpaceCh = true := allSpace_rstripNl line h
  have hsm : parser_linux.syslogMatch (pyRstripNl line).data = none :=
    allSpace_syslogMatch_none _ hr
  have hr2 : (pyRstripNl (pyRstripNl line)).data.all isSpaceCh = true :=
    allSpace_rstripNl _ hr
  have hzm : zbxDaemonMatch (pyRstripNl (pyRstripNl line)).data = none :=
    allSpace_zbxMatch_none _ hr2
  have hps : pyStrip line = "" := allSpace_pyStrip line h
  have hpr : pyStrip (pyRstripNl (pyRstripNl line)) = "" := allSpace_pyStrip _ hr2
  refine ⟨?_, ?_, ?_⟩
  · simp [ingest.ingest_syslog_line, parser_linux.parse_syslog_line, hsm]
  · simp [models.ingest_plaintext_line, hps]
  · simp [ingest.ingest_zabbix_server_line, parser_zabbix_server.parse_zabbix_server_line,
      hzm, hpr, models.insert_log]
    rfl

/-- Witness for c1_blank_lines at a concrete whitespace-only line. -/
theorem c1_blank_lines_witness :
    ingest.ingest_syslog_line ⟨2026, 10, 12, 3, 4, 5, 123⟩ [] "  " = Except.ok [] ∧
    models.ingest_plaintext_line ⟨2026, 10, 12, 3, 4, 5, 123⟩ "upload" "upload-host" [] "  " = [] ∧
    ingest.ingest_zabbix_server_line ⟨2026, 10, 12, 3, 4, 5, 123⟩ "zabbix-server" [] "  " =
      Except.ok ([] ++ [{ timestamp := isoformatSp ⟨2026, 10, 12, 3, 4, 5, 123⟩,
                          source := "zabbix_server_raw", level := "INFO",
                          host := "zabbix-server", message := "" }]) :=
  c1_blank_lines ⟨2026, 10, 12, 3, 4, 5, 123⟩ "zabbix-server" "upload" "upload-host" "  " []
    (by decide)

/-! ## Helper lemmas for the record invariant -/

theorem mk_ne_empty {l : List Char} (h : l ≠ []) : String.mk l ≠ "" := by
  intro he
  exact h (congrArg String.data he)

theorem ne_empty_of_length_pos {s : String} (h : 0 < s.length) : s ≠ "" := by
  intro he
  subst he
  exact absurd h (by decide)

theorem strftime_length_pos (d : DateTime) : 0 < (strftimeYmdHMS d).length := by
  unfold strftimeYmdHMS
  simp only [String.length_append]
  have h : ("-" : String).length = 1 := rfl
  omega

theorem strftime_ne_empty (d : DateTime) : strftimeYmdHMS d ≠ "" :=
  ne_empty_of_length_pos (strftime_length_pos d)

theorem isoformat_ne_empty (d : DateTime) : isoformatSp d ≠ "" := by
  apply ne_empty_of_length_pos
  unfold isoformatSp
  rw [String.length_append]
  have := strftime_length_pos d
  omega

theorem syslog_guess_level_ne_empty (m : String) : parser_linux.guess_level m ≠ "" := by
  simp only [parser_linux.guess_level]
  split_ifs <;> decide

theorem zbx_server_guess_level_ne_empty (m : String) :
    parser_zabbix_server.guess_level m ≠ "" := by
  simp only [parser_zabbix_server.guess_level]
  split_ifs <;> decide

theorem classifyLevel_ne_empty (l : String) : models.classifyLevel l ≠ "" := by
  unfold models.classifyLevel
  cases hf : models.level_patterns.find? (fun p => p.2 l) with
  | none => decide
  | some p =>
    have hmem := List.mem_of_find?_eq_some hf
    simp only [models.level_patterns, List.mem_cons, List.not_mem_nil, or_false] at hmem
    rcases hmem with h | h | h | h | h <;> subst h <;> decide

theorem syslogMatch_host_ne_nil (cs mon day time host rest : List Char)
    (h : parser_linux.syslogMatch cs = some (mon, day, time, host, rest)) : host ≠ [] := by
  simp only [parser_linux.syslogMatch] at h
  split at h
  case isFalse => exact absurd h (by simp)
  case isTrue =>
    split at h
    case isTrue => exact absurd h (by simp)
    case isFalse =>
    split at h
    case isTrue => exact absurd h (by simp)
    case isFalse =>
    split at h
    case isTrue => exact absurd h (by simp)
    case isFalse =>
    split at h
    case h_1 => exact absurd h (by simp)
    case h_2 _ time0 r4 _ =>
    split at h
    case isTrue => exact absurd h (by simp)
    case isFalse =>
    split at h
    case isTrue => exact absurd h (by simp)
    case isFalse hguard =>
    split at h
    case isTrue => exact absurd h (by simp)
    case isFalse =>
    simp only [Option.some.injEq, Prod.mk.injEq] at h
    obtain ⟨-, -, -, hh, -⟩ := h
    subst hh
    intro hnil
    exact hguard (by simp [hnil])

theorem parse_syslog_invariant (line : String) (y : Option Nat) (now : DateTime)
    (r0 : LogRecord) (h : parser_linux.parse_syslog_line line y now = Except.ok (some r0)) :
    r0.timestamp ≠ "" ∧ r0.level ≠ "" ∧ r0.host ≠ "" ∧
    r0.cause_group = none ∧ r0.cause_reason = none ∧ r0.cause_action = none := by
  simp only [parser_linux.parse_syslog_line] at h
  cases hm : parser_linux.syslogMatch line.data with
  | none =>
    rw [hm] at h
    exact absurd h (by simp)
  | some tup =>
    obtain ⟨mon, day, time, host, rest⟩ := tup
    rw [hm] at h
    dsimp only at h
    split at h
    case h_1 =>
      simp only [Except.ok.injEq, Option.some.injEq] at h
      subst h
      exact ⟨isoformat_ne_empty _, syslog_guess_level_ne_empty _,
        mk_ne_empty (syslogMatch_host_ne_nil _ _ _ _ _ _ hm), rfl, rfl, rfl⟩
    case h_2 => exact absurd h (by simp)

theorem parse_zbx_server_invariant (line host0 : String) (now : DateTime) (r0 : LogRecord)
    (h : parser_zabbix_server.parse_zabbix_server_line line host0 now = Except.ok r0) :
    r0.timestamp ≠ "" ∧ r0.level ≠ "" ∧ r0.host = host0 ∧
    r0.cause_group = none ∧ r0.cause_reason = none ∧ r0.cause_action = none := by
  simp only [parser_zabbix_server.parse_zabbix_server_line] at h
  cases hm : zbxDaemonMatch (pyRstripNl line).data with
  | none =>
    rw [hm] at h
    dsimp only at h
    simp only [Except.ok.injEq] at h
    subst h
    exact ⟨isoformat_ne_empty _, zbx_server_guess_level_ne_empty _, rfl, rfl, rfl, rfl⟩
  | some tup =>
    obtain ⟨pid, date, time, msgRaw⟩ := tup
    rw [hm] at h
    dsimp only at h
    split at h
    case h_1 =>
      simp only [Except.ok.injEq] at h
      subst h
      exact ⟨isoformat_ne_empty _, zbx_server_guess_level_ne_empty _, rfl, rfl, rfl, rfl⟩
    case h_2 => exact absurd h (by simp)

theorem parse_php_invariant (line : String) (now : DateTime) (p : models.PhpParsed)
    (h : models.parse_php_error_line line now = some p) :
    p.timestamp ≠ "" ∧ p.level ≠ "" ∧
    p.cause_group.isSome = true ∧ p.cause_reason.isSome = true ∧ p.cause_action.isSome = true := by
  simp only [models.parse_php_error_line] at h
  split at h
  case h_1 => exact absurd h (by simp)
  case h_2 =>
    split at h
    · split at h
      · simp only [Option.some.injEq] at h
        subst h
        refine ⟨?_, ?_, rfl, rfl, rfl⟩
        · dsimp only
          split <;> exact strftime_ne_empty _
        · dsimp only
          split_ifs <;> decide
      · simp only [Option.some.injEq] at h
        subst h
        refine ⟨?_, ?_, rfl, rfl, rfl⟩
        · dsimp only
          split <;> exact strftime_ne_empty _
        · dsimp only
          split_ifs <;> decide
    · simp only [Option.some.injEq] at h
      subst h
      refine ⟨?_, ?_, rfl, rfl, rfl⟩
      · dsimp only
        split <;> exact strftime_ne_empty _
      · dsimp only
        split_ifs <;> decide

theorem isoTsMatch_ne_nil (cs ts : List Char) (h : models.isoTsMatch cs = some ts) :
    ts ≠ [] := by
  simp only [models.isoTsMatch] at h
  split at h
  case h_2 => exact absurd h (by simp)
  case h_1 =>
    split at h
    case isFalse => exact absurd h (by simp)
    case isTrue =>
      split at h
      case h_2 => exact absurd h (by simp)
      case h_1 =>
        simp only [Option.some.injEq] at h
        subst h
        simp

/-- C2 counterexample: a blank line through the ingest.py Zabbix-server
path persists a record whose message is the empty string, violating the
claimed non-empty-message invariant. -/
theorem c2_counterexample :
    ingest.ingest_zabbix_server_line ⟨2026, 5, 6, 7, 8, 9, 0⟩ "zabbix-server" [] "" =
      Except.ok [{ timestamp := "2026-05-06 07:08:09", source := "zabbix_server_raw",
                   level := "INFO", host := "zabbix-server", message := "" }] ∧
    ({ timestamp := "2026-05-06 07:08:09", source := "zabbix_server_raw",
       level := "INFO", host := "zabbix-server", message := "" } : LogRecord).message = "" :=
  ⟨rfl, rfl⟩

/-- C2 amended: every record newly persisted by the syslog,
Zabbix-server or free-text ingestion step has non-empty timestamp, level
and host (host provided the caller-supplied alias is non-empty), and its
cause fields are all present or all absent together; the message,
however, may be empty (see the counterexample). -/
theorem c2_record_invariant (now : DateTime) (hostAlias source dhost line : String)
    (store : List LogRecord) (r : LogRecord)
    (halias : hostAlias ≠ "") (hdhost : dhost ≠ "")
    (hr : (∃ res, ingest.ingest_syslog_line now store line = Except.ok res ∧ r ∈ res) ∨
          (∃ res, ingest.ingest_zabbix_server_line now hostAlias store line = Except.ok res ∧ r ∈ res) ∨
          r ∈ models.ingest_plaintext_line now source dhost store line)
    (hnew : r ∉ store) : recInvariant r := by
  rcases hr with ⟨res, hres, hmem⟩ | ⟨res, hres, hmem⟩ | hmem
  · -- syslog ingestion step
    simp only [ingest.ingest_syslog_line] at hres
    cases hp : parser_linux.parse_syslog_line (pyRstripNl line) none now with
    | error e => rw [hp] at hres; exact absurd hres (by simp)
    | ok oa =>
      cases oa with
      | none =>
        rw [hp] at hres
        simp only [Except.ok.injEq] at hres
        subst hres
        exact absurd hmem hnew
      | some r0 =>
        rw [hp] at hres
        simp only [Except.ok.injEq] at hres
        subst hres
        simp only [models.insert_log, List.mem_append, List.mem_singleton] at hmem
        rcases hmem with hmem | hmem
        · exact absurd hmem hnew
        · subst hmem
          obtain ⟨ht, hl, hh, -, -, -⟩ := parse_syslog_invariant _ _ _ _ hp
          exact ⟨ht, hl, hh, Or.inr ⟨rfl, rfl, rfl⟩⟩
  · -- zabbix-server ingestion step
    simp only [ingest.ingest_zabbix_server_line] at hres
    cases hp : parser_zabbix_server.parse_zabbix_server_line (pyRstripNl line) hostAlias now with
    | error e => rw [hp] at hres; exact absurd hres (by simp)
    | ok r0 =>
      rw [hp] at hres
      simp only [Except.ok.injEq] at hres
      subst hres
      simp only [models.insert_log, List.mem_append, List.mem_singleton] at hmem
      rcases hmem with hmem | hmem
      · exact absurd hmem hnew
      · subst hmem
        obtain ⟨ht, hl, hh, -, -, -⟩ := parse_zbx_server_invariant _ _ _ _ hp
        exact ⟨ht, hl, by simp only [hh]; exact halias, Or.inr ⟨rfl, rfl, rfl⟩⟩
  · -- free-text/upload ingestion step
    simp only [models.ingest_plaintext_line] at hmem
    by_cases hb : pyStrip line = ""
    · rw [if_pos (by simp [hb])] at hmem
      exact absurd hmem hnew
    · rw [if_neg (by simp [hb])] at hmem
      cases hphp : models.parse_php_error_line (pyStrip line) now with
      | some p =>
        rw [hphp] at hmem
        dsimp only at hmem
        simp only [models.insert_log, List.mem_append, List.mem_singleton] at hmem
        rcases hmem with hmem | hmem
        · exact absurd hmem hnew
        · subst hmem
          obtain ⟨ht, hl, hg, hre, ha⟩ := parse_php_invariant _ _ _ hphp
          exact ⟨ht, hl, hdhost, Or.inl ⟨hg, hre, ha⟩⟩
      | none =>
        rw [hphp] at hmem
        dsimp only at hmem
        simp only [models.insert_log, List.mem_append, List.mem_singleton] at hmem
        rcases hmem with hmem | hmem
        · exact absurd hmem hnew
        · subst hmem
          refine ⟨?_, classifyLevel_ne_empty _, hdhost, Or.inr ⟨rfl, rfl, rfl⟩⟩
          cases hiso : models.isoTsMatch (pyStrip line).data with
          | some ts => exact mk_ne_empty (isoTsMatch_ne_nil _ _ hiso)
          | none => exact strftime_ne_empty _

/-- Witness for c2_record_invariant: the record inserted by the
free-text step for "hello ERROR world" satisfies the invariant. -/
theorem c2_record_invariant_witness :
    recInvariant { timestamp := strftimeYmdHMS ⟨2026, 10, 12, 3, 4, 5, 0⟩, source := "upload",
                   level := models.classifyLevel (pyStrip "hello ERROR world"),
                   host := "upload-host", message := pyStrip "hello ERROR world" } :=
  c2_record_invariant ⟨2026, 10, 12, 3, 4, 5, 0⟩ "zabbix-server" "upload" "upload-host"
    "hello ERROR world" [] _ (by decide) (by decide)
    (Or.inr (Or.inr (by decide))) (by decide)

/-! ## Specification of findSub (first-occurrence search) -/

theorem findSub_none_spec (hay needle : List Char) (h : findSub hay needle = none) (i : Nat) :
    needle.isPrefixOf (hay.drop i) = false := by
  induction hay generalizing i with
  | nil =>
    simp only [findSub] at h
    split at h
    · exact absurd h (by simp)
    · rename_i hne
      rw [List.drop_nil]
      cases needle with
      | nil => simp at hne
      | cons a as => rfl
  | cons c t ih =>
    simp only [findSub] at h
    split at h
    · exact absurd h (by simp)
    · rename_i hpre
      have ht : findSub t needle = none := by
        cases hft : findSub t needle with
        | none => rfl
        | some j => rw [hft] at h; simp at h
      cases i with
      | zero =>
        rw [Bool.not_eq_true] at hpre
        exact hpre
      | succ i2 =>
        rw [List.drop_succ_cons]
        exact ih ht i2

theorem findSub_some_spec (hay needle : List Char) (i : Nat)
    (h : findSub hay needle = some i) :
    needle.isPrefixOf (hay.drop i) = true ∧
    ∀ j, j < i → needle.isPrefixOf (hay.drop j) = false := by
  induction hay generalizing i with
  | nil =>
    simp only [findSub] at h
    split at h
    · rename_i hemp
      simp only [Option.some.injEq] at h
      subst h
      refine ⟨?_, fun j hj => absurd hj (by omega)⟩
      rw [List.isEmpty_iff] at hemp
      subst hemp
      rfl
    · exact absurd h (by simp)
  | cons c t ih =>
    simp only [findSub] at h
    split at h
    · rename_i hpre
      simp only [Option.some.injEq] at h
      subst h
      exact ⟨hpre, fun j hj => absurd hj (by omega)⟩
    · rename_i hpre
      rw [Bool.not_eq_true] at hpre
      cases hft : findSub t needle with
      | none => rw [hft] at h; simp at h
      | some j =>
        rw [hft] at h
        simp only [Option.map_some', Option.some.injEq] at h
        subst h
        obtain ⟨h1, h2⟩ := ih j hft
        refine ⟨by rw [List.drop_succ_cons]; exact h1, ?_⟩
        intro k hk
        cases k with
        | zero => exact hpre
        | succ k2 =>
          rw [List.drop_succ_cons]
          exact h2 k2 (by omega)

/-- C4 counterexample: for the rest-of-line text "A IN B in C" the code
computes msg_main (and hence cause_reason) as "A" — it splits at the
case-insensitive occurrence found by lowercasing — whereas the claimed
case-sensitive split at the literal " in " would give "A IN B". -/
theorem c4_counterexample :
    models.parse_php_error_line
        "[02-Oct-2025 15:59:40 Europe/Berlin] PHP Warning: A IN B in C"
        ⟨2026, 1, 1, 0, 0, 0, 0⟩ =
      some { timestamp := "2025-10-02 15:59:40", level := "WARNING", message := "A IN B in C",
             cause_group := some "aplicacao", cause_reason := some "A",
             cause_action := some "Avaliar stack trace e corrigir causa raiz no código PHP" } ∧
    models.msg_main_of "A IN B in C" = "A" ∧
    ("A" : String) ≠ "A IN B" :=
  ⟨by decide, by decide, by decide⟩

/-- C4 amended: msg_main equals the whitespace-trimmed prefix of the
rest-of-line text before the first CASE-INSENSITIVE occurrence of the
literal " in " (the code searches the lowercased text), and the whole
text when no such occurrence exists. -/
theorem c4_msg_main_split (rest : String) :
    (∀ i, ciInOccursAt rest i →
        models.msg_main_of rest = pyStrip (String.mk (rest.data.take i))) ∧
    ((∀ i, " in ".data.isPrefixOf ((rest.data.map lowerCh).drop i) = false) →
      models.msg_main_of rest = rest) := by
  constructor
  · rintro i ⟨hpre, hmin⟩
    cases hf : findSub (rest.data.map lowerCh) " in ".data with
    | none =>
      exact absurd hpre (by simp [findSub_none_spec _ _ hf i])
    | some j =>
      obtain ⟨hj, hjmin⟩ := findSub_some_spec _ _ _ hf
      have hij : i = j := by
        rcases Nat.lt_trichotomy i j with hlt | heq | hgt
        · exact absurd hpre (by simp [hjmin i hlt])
        · exact heq
        · exact absurd hj (by simp [hmin j hgt])
      subst hij
      simp only [models.msg_main_of, hf]
  · intro hno
    cases hf : findSub (rest.data.map lowerCh) " in ".data with
    | none => simp only [models.msg_main_of, hf]
    | some j =>
      obtain ⟨hj, -⟩ := findSub_some_spec _ _ _ hf
      exact absurd hj (by simp [hno j])

/-- Witness for c4_msg_main_split: in "A IN B in C" the first
case-insensitive occurrence of " in " is at index 1, and msg_main is the
trimmed one-character prefix. -/
theorem c4_msg_main_split_witness :
    models.msg_main_of "A IN B in C" = pyStrip (String.mk ("A IN B in C".data.take 1)) :=
  (c4_msg_main_split "A IN B in C").1 1
    ⟨by decide, by intro j hj; interval_cases j; decide⟩

end Lognalizer
